import Mathlib

/-!
Verification of the turndown-cli source (src/index.js): the option
resolution blocks, plugin loading, the fs.readFile callback, the help-text
serializer, and a spec-modelled fragment of the HTML-to-Markdown renderer
(the conversion engine itself is the external turndown library and is not
part of src/, so it is modelled from the spec where a claim needs it).
-/

namespace TurndownCli

/-- The `serialize` helper of src/index.js (lines 9-15): numbers the
entries of a list from 1 as `1) first`, `2) second`, ... and joins them
with four spaces. The JS index loop is embedded as a map over the
enumerated list. -/
def serialize (list : List String) : String :=
  String.intercalate "    " (list.enum.map (fun p => toString (p.1 + 1) ++ ") " ++ p.2))

namespace Options

/-- `Options.headingStyle` choice list (src/index.js line 24). -/
def headingStyle : List String := ["setext", "atx"]

/-- `Options.hr` choice list (line 25; the JS literal backslashes are
identity escapes, so the strings are the bare characters). -/
def hr : List String := ["*", "-", "_"]

/-- `Options.bulletListMarker` choice list (line 26). -/
def bulletListMarker : List String := ["*", "-", "+"]

/-- `Options.codeBlockStyle` choice list (line 27). -/
def codeBlockStyle : List String := ["indented", "fenced"]

/-- `Options.fence` choice list (line 28). -/
def fence : List String := ["`", "~"]

/-- `Options.emDelimiter` choice list (line 29). -/
def emDelimiter : List String := ["_", "*"]

/-- `Options.strongDelimiter` choice list (line 30). -/
def strongDelimiter : List String := ["**", "__"]

/-- `Options.linkStyle` choice list (line 31). -/
def linkStyle : List String := ["inlined", "referenced"]

/-- `Options.linkReferenceStyle` choice list (line 32). -/
def linkReferenceStyle : List String := ["full", "collapsed", "shortcut"]

/-- `Options.preformattedCode` choice list (line 33); the choices are the
strings false and true. -/
def preformattedCode : List String := ["false", "true"]

end Options

/-- A minimist-parsed command-line value as it reaches option resolution:
a number (JS numbers are modelled as integers; every selector the CLI
documents is a small integer), a non-numeric string, or a boolean flag
value. -/
inductive ArgVal
  | num (n : Int)
  | str (s : String)
  | boolTrue
  | boolFalse
deriving DecidableEq

/-- JS truthiness of an `ArgVal`, as tested by the guards
`if (argv.head || argv.t)` of src/index.js: the number 0, the empty
string and false are falsy, everything else here is truthy. -/
def truthy : ArgVal → Bool
  | .num n => n != 0
  | .str s => s != ""
  | .boolTrue => true
  | .boolFalse => false

/-- The numeric value of one decimal digit character. -/
def digitVal (c : Char) : Option Nat :=
  if c.isDigit then some (c.toNat - '0'.toNat) else none

/-- The value of a nonempty run of decimal digits; `none` when the run is
empty or contains a non-digit. -/
def digitsVal : List Char → Option Nat
  | [] => none
  | cs =>
    cs.foldl
      (fun acc c =>
        match acc, digitVal c with
        | some n, some d => some (n * 10 + d)
        | _, _ => none)
      (some 0)

/-- JS Number() applied to a string, restricted to optional-sign decimal
integer literals (the integer restriction of this embedding); any other
string coerces to NaN, modelled as `none`. -/
def strToNum (s : String) : Option Int :=
  match s.data with
  | '-' :: rest => (digitsVal rest).map (fun n => -(n : Int))
  | '+' :: rest => (digitsVal rest).map (fun n => (n : Int))
  | cs => (digitsVal cs).map (fun n => (n : Int))

/-- JS unary plus coercion applied by `+optVal`: numbers pass through,
true becomes 1, false becomes 0, and a string parses as a number; any
non-numeric string gives NaN, modelled as `none`. -/
def toNumber : ArgVal → Option Int
  | .num n => some n
  | .str s => strToNum s
  | .boolTrue => some 1
  | .boolFalse => some 0

/-- JS `a || b` on possibly-absent argv properties (`none` is
`undefined`): the first operand when it is truthy, otherwise the second. -/
def jsOr (a b : Option ArgVal) : Option ArgVal :=
  match a with
  | some v => if truthy v then some v else b
  | none => b

/-- JS array indexing `choices[optVal]` with an integer index: the element
for a valid index, `undefined` (modelled as `none`) otherwise - negative
indices included. -/
def jsIndex (l : List String) (i : Int) : Option String :=
  if h : 0 ≤ i ∧ i.toNat < l.length then some (l.get ⟨i.toNat, h.2⟩) else none

/-- One option-resolution block of src/index.js (e.g. lines 352-358 for
headingStyle): when the truthy merge of the long and short flags exists,
the value is coerced with unary plus and decremented, and if the result is
below the choice-list length the field is assigned `choices[optVal]`.
Result: `none` when the field is left unset, `some v` when the field is
assigned `v`, where `v : Option String` is `none` for JS `undefined`.
A NaN coercion (`toNumber` giving `none`) fails the `<` comparison, so
that field is left unset too. -/
def resolveDim (choices : List String) (long short : Option ArgVal) : Option (Option String) :=
  match jsOr long short with
  | none => none
  | some v =>
    if truthy v then
      match toNumber v with
      | none => none
      | some n =>
        if n - 1 < (choices.length : Int) then some (jsIndex choices (n - 1)) else none
    else none

/-- The minimist result restricted to what option resolution reads: a map
from flag name to the supplied value (`none` is an absent flag, i.e. JS
`undefined`). -/
def Argv : Type := String → Option ArgVal

/-- The flag keys option resolution reads (src/index.js lines 352-421). -/
def recognizedKeys : List String :=
  ["head", "t", "hr", "r", "bullet", "b", "code", "c", "fence", "f",
   "em", "e", "strong", "s", "link", "l", "linkref", "u", "pre", "p"]

/-- The `options` object after the ten resolution blocks of src/index.js.
Each field is `none` when its block left the property unset and `some v`
when it assigned `v` (with `v = none` standing for JS `undefined`). The
object has exactly these ten properties: no block writes anything else. -/
structure ResolvedOptions where
  headingStyle : Option (Option String)
  hr : Option (Option String)
  bulletListMarker : Option (Option String)
  codeBlockStyle : Option (Option String)
  fence : Option (Option String)
  emDelimiter : Option (Option String)
  strongDelimiter : Option (Option String)
  linkStyle : Option (Option String)
  linkReferenceStyle : Option (Option String)
  preformattedCode : Option (Option String)

/-- Option resolution, src/index.js lines 350-421 (the remote-branch copy
at lines 245-316 is textually identical): each block merges the long and
short flag with JS or and resolves through its choice list. -/
def resolveOptions (a : Argv) : ResolvedOptions where
  headingStyle := resolveDim Options.headingStyle (a "head") (a "t")
  hr := resolveDim Options.hr (a "hr") (a "r")
  bulletListMarker := resolveDim Options.bulletListMarker (a "bullet") (a "b")
  codeBlockStyle := resolveDim Options.codeBlockStyle (a "code") (a "c")
  fence := resolveDim Options.fence (a "fence") (a "f")
  emDelimiter := resolveDim Options.emDelimiter (a "em") (a "e")
  strongDelimiter := resolveDim Options.strongDelimiter (a "strong") (a "s")
  linkStyle := resolveDim Options.linkStyle (a "link") (a "l")
  linkReferenceStyle := resolveDim Options.linkReferenceStyle (a "linkref") (a "u")
  preformattedCode := resolveDim Options.preformattedCode (a "pre") (a "p")

/-- An entry of plugins.json, as written by `installPlugin`
(src/index.js lines 59-88). -/
structure PluginEntry where
  name : String
  version : String
  path : String

/-- A parsed plugins.json. -/
structure PluginsConfig where
  plugins : List PluginEntry

/-- `readPluginsConfig` of src/index.js (lines 45-52): the parsed file
when it exists, otherwise a config with an empty plugin list. -/
def readPluginsConfig (file : Option PluginsConfig) : PluginsConfig :=
  match file with
  | some c => c
  | none => { plugins := [] }

/-- `loadPlugins` of src/index.js (lines 117-123): for each configured
plugin, in order, the module at its recorded path is required and passed
to `turndownService.use`. The forEach is embedded as a left fold recording
the module path of every use call issued, in issue order. -/
def loadPlugins (file : Option PluginsConfig) : List String :=
  (readPluginsConfig file).plugins.foldl (fun calls p => calls ++ [p.path]) []

/-- Observable effect of one fs.readFile callback run: the error-path
console output it produced and the content of the fs.writeFile call it
issued (`none` means no write was issued, so an existing target file is
left untouched). -/
structure CallbackEffect where
  errorsLogged : List String
  written : Option String

/-- The fs.readFile callback of src/index.js lines 426-447 (the remote
branch local fallback at lines 321-342 is identical). The external
`turndownService.turndown` call is the parameter `conv`; `Except.error`
models a thrown exception, caught by the try/catch which logs and falls
through. After a conversion error the variable markdown is left
`undefined`, so the `if (markdown)` guard skips the write; an empty
string is falsy and skips it as well. -/
def readFileCallback (conv : String → Except String String)
    (readErr : Option String) (data : String) : CallbackEffect :=
  match readErr with
  | some e => { errorsLogged := [e], written := none }
  | none =>
    match conv data with
    | .error e =>
        { errorsLogged := ["Error: Something went wrong while conversion. " ++ e]
        , written := none }
    | .ok markdown =>
        { errorsLogged := []
        , written := if markdown = "" then none else some markdown }

/-- Modelled from the spec: the heading rule of the Rule Table (the
conversion engine is the external turndown library, missing from src/).
Spec wording: setext uses underline characters sized to match heading
text width for levels 1-2 and falls back to atx-style leading hash marks
for deeper levels; atx always uses leading hash marks repeated per level,
followed by a space; the glossary gives the equals sign and the dash as
the setext underline characters (equals for level 1, dash for level 2). -/
def renderHeading (style : String) (level : Nat) (text : String) : String :=
  if style = "setext" ∧ level ≤ 2 then
    text ++ "\n" ++ String.mk (List.replicate text.length (if level = 1 then '=' else '-'))
  else
    String.mk (List.replicate level '#') ++ " " ++ text

/-- Heading tag name to heading level. -/
def headingLevel : String → Option Nat
  | "h1" => some 1
  | "h2" => some 2
  | "h3" => some 3
  | "h4" => some 4
  | "h5" => some 5
  | "h6" => some 6
  | _ => none

/-- Modelled from the spec: the effective conversion options read by the
rendered fragment below (heading, strong and em rules). -/
structure EffOptions where
  headingStyle : String
  strongDelimiter : String
  emDelimiter : String

/-- Modelled from the spec and the help text of src/index.js (line 172,
"Note that the first choice is default for each options"): the default of
every dimension is the first enumerated choice. -/
def defaultEffOptions : EffOptions where
  headingStyle := Options.headingStyle.headD ""
  strongDelimiter := Options.strongDelimiter.headD ""
  emDelimiter := Options.emDelimiter.headD ""

/-- Modelled from the spec: one Rule Table dispatch - given a node's tag
and its already-converted children, produce the node's Markdown fragment.
Strong and em wrap with the configured delimiter, h1-h6 use the heading
rule, and any other tag keeps the inline content and drops the wrapping
tag (the fallback rule). -/
def applyRule (o : EffOptions) (tag : String) (inner : String) : String :=
  match headingLevel tag with
  | some lvl => renderHeading o.headingStyle lvl inner
  | none =>
    if tag = "b" ∨ tag = "strong" then o.strongDelimiter ++ inner ++ o.strongDelimiter
    else if tag = "em" ∨ tag = "i" then o.emDelimiter ++ inner ++ o.emDelimiter
    else inner

/-- Modelled from the spec: post-order rendering of the spec's example
document `<h1>Title</h1><p>Hello <b>world</b></p>` - children are rendered
first and passed to the parent's rule, and the two top-level blocks are
joined by exactly one blank line. -/
def renderExample (o : EffOptions) : String :=
  String.intercalate "\n\n"
    [applyRule o "h1" "Title",
     applyRule o "p" ("Hello " ++ applyRule o "b" "world")]

/-- The reading of `serialize` stated in the claim, written independently
of the source's index loop: entries numbered sequentially starting from a
given counter, in list order. Used for the refinement theorem below. -/
def numberedFrom : Nat → List String → List String
  | _, [] => []
  | k, x :: xs => (toString k ++ ") " ++ x) :: numberedFrom (k + 1) xs

/-- Appending strings appends their character data. -/
theorem data_append (a b : String) : (a ++ b).data = a.data ++ b.data := by
  cases a; cases b; rfl

/-- JS array indexing either yields `undefined` or an element of the
array. -/
theorem jsIndex_none_or_mem (l : List String) (i : Int) :
    jsIndex l i = none ∨ ∃ c ∈ l, jsIndex l i = some c := by
  unfold jsIndex
  split
  · exact Or.inr ⟨_, List.get_mem _ _ _, rfl⟩
  · exact Or.inl rfl

/-- Mapping the numbering function over an enumeration starting at `n`
numbers the entries from `n + 1`. -/
theorem enumFrom_numbered (n : Nat) (l : List String) :
    (List.enumFrom n l).map (fun p => toString (p.1 + 1) ++ ") " ++ p.2)
      = numberedFrom (n + 1) l := by
  induction l generalizing n with
  | nil => rfl
  | cons x xs ih => simp [List.enumFrom, numberedFrom, ih]

/-- The fold recording the plugin use calls appends exactly the configured
module paths, in order. -/
theorem foldl_use_calls (ps : List PluginEntry) (acc : List String) :
    ps.foldl (fun calls p => calls ++ [p.path]) acc = acc ++ ps.map (fun p => p.path) := by
  induction ps generalizing acc with
  | nil => simp
  | cons p ps ih => simp [List.foldl, ih]

/-- Counterexample for claim C1: supplying the numeric selector -1 for the
heading-style flag (argv has t = -1, i.e. `-t=-1`) passes the
upper-bound-only guard (-2 is below the list length 2) and assigns
`Options.headingStyle[-2]`, which is JS `undefined` - a value outside the
enumerated choice set, so a resolved field can hold a non-member. -/
theorem c1_negative_selector_escapes_enum :
    (resolveOptions (fun k => if k = "t" then some (ArgVal.num (-1)) else none)).headingStyle
      = some none ∧
    ∀ c ∈ Options.headingStyle, (none : Option String) ≠ some c := by
  decide

/-- Claim C1 (amended): every field that option resolution assigns holds
either a member of that dimension's enumerated choice set or the JS
`undefined` value; `undefined` arises only from a truthy numeric selector
whose decrement passes the length guard without being a valid array index
(a negative index, since the guard checks only the upper bound). -/
theorem c1_amended_field_in_enum_or_undefined (choices : List String)
    (long short : Option ArgVal) (v : Option String)
    (h : resolveDim choices long short = some v) :
    (∃ c ∈ choices, v = some c) ∨ v = none := by
  unfold resolveDim at h
  split at h
  · exact absurd h (by simp)
  · split at h
    · split at h
      · exact absurd h (by simp)
      · split at h
        · injection h with h
          rcases jsIndex_none_or_mem choices _ with hi | ⟨c, hc, hi⟩
          · exact Or.inr (h ▸ hi ▸ rfl)
          · exact Or.inl ⟨c, hc, by rw [← h, hi]⟩
        · exact absurd h (by simp)
    · exact absurd h (by simp)

/-- Witness for claim C1: the valid selector 2 for heading style resolves
the field to atx, a member of the enumeration. -/
theorem c1_amended_witness :
    (∃ c ∈ Options.headingStyle, (some "atx" : Option String) = some c) ∨
      (some "atx" : Option String) = none :=
  c1_amended_field_in_enum_or_undefined Options.headingStyle none
    (some (ArgVal.num 2)) (some "atx") (by decide)

/-- Counterexample for claim C2: the selector -1 for the horizontal-rule
flag is below 1, yet resolution does not ignore it - the hr field is
assigned (JS `undefined`) rather than left unset. -/
theorem c2_negative_selector_not_ignored :
    (resolveOptions (fun k => if k = "r" then some (ArgVal.num (-1)) else none)).hr
      = some none ∧
    (resolveOptions (fun k => if k = "r" then some (ArgVal.num (-1)) else none)).hr
      ≠ none := by
  decide

/-- Claim C2 (amended): a supplied flag value that is falsy, coerces to
NaN, or whose decrement is at least the choice-list length is ignored -
the field is left unset and the existing default remains. (Truthy numeric
selectors below 1 are the exception the counterexample exhibits: the
guard checks only the upper bound, so they assign JS `undefined`.) -/
theorem c2_amended_out_of_range_ignored (choices : List String) (a : ArgVal)
    (h : truthy a = false ∨ toNumber a = none ∨
         ∃ n : Int, toNumber a = some n ∧ (choices.length : Int) ≤ n - 1) :
    resolveDim choices (some a) none = none := by
  unfold resolveDim jsOr
  rcases h with h | h | ⟨n, hn, hge⟩
  · simp [h]
  · by_cases ht : truthy a
    · simp [ht, h]
    · simp [ht]
  · by_cases ht : truthy a
    · simp [ht, hn, not_lt.mpr hge]
    · simp [ht]

/-- Witness for claim C2: selector 5 exceeds the two heading-style choices
and the field is left unset. -/
theorem c2_amended_witness :
    resolveDim Options.headingStyle (some (ArgVal.num 5)) none = none :=
  c2_amended_out_of_range_ignored Options.headingStyle (ArgVal.num 5)
    (Or.inr (Or.inr ⟨5, rfl, by decide⟩))

/-- Counterexample for claim C3: the invalid selector -1 for the
code-block-style flag does not degrade to the option's default first
choice (indented) - the field is assigned JS `undefined`, which is
neither the first enumerated choice nor absence of the field. -/
theorem c3_invalid_selector_not_default :
    (resolveOptions (fun k => if k = "c" then some (ArgVal.num (-1)) else none)).codeBlockStyle
      = some none ∧
    some (none : Option String) ≠ some (some "indented") ∧
    some (none : Option String) ≠ (none : Option (Option String)) := by
  decide

/-- Claim C3 (amended): option resolution is total and never raises - the
embedding is a plain function because every JS operation involved
(property access, logical or, unary plus, subtraction, comparison, array
indexing) is non-throwing - and for every supplied value each field is
exhaustively one of: left unset (the default remains), assigned JS
`undefined` (for a truthy selector passing the upper-bound-only guard with
an invalid index), or assigned a member of the enumeration. -/
theorem c3_amended_resolution_trichotomy (choices : List String)
    (long short : Option ArgVal) :
    resolveDim choices long short = none ∨
    resolveDim choices long short = some none ∨
    ∃ c ∈ choices, resolveDim choices long short = some (some c) := by
  unfold resolveDim
  split
  · exact Or.inl rfl
  · split
    · split
      · exact Or.inl rfl
      · split
        · rcases jsIndex_none_or_mem choices _ with hi | ⟨c, hc, hi⟩
          · exact Or.inr (Or.inl (by rw [hi]))
          · exact Or.inr (Or.inr ⟨c, hc, by rw [hi]⟩)
        · exact Or.inl rfl
    · exact Or.inl rfl

/-- Claim C4: option resolution reads only the twenty recognized flag
keys, so any two argv maps that agree on them resolve identically -
unrecognized keys are ignored without error, and the resolved object has
exactly the ten option fields by construction. -/
theorem c4_unknown_keys_ignored (a b : Argv)
    (h : ∀ k ∈ recognizedKeys, a k = b k) :
    resolveOptions a = resolveOptions b := by
  simp only [resolveOptions]
  rw [h "head" (by decide), h "t" (by decide), h "hr" (by decide), h "r" (by decide),
      h "bullet" (by decide), h "b" (by decide), h "code" (by decide), h "c" (by decide),
      h "fence" (by decide), h "f" (by decide), h "em" (by decide), h "e" (by decide),
      h "strong" (by decide), h "s" (by decide), h "link" (by decide), h "l" (by decide),
      h "linkref" (by decide), h "u" (by decide), h "pre" (by decide), h "p" (by decide)]

/-- Witness for claim C4: an unrecognized verbose flag leaves resolution
identical to an empty argv. -/
theorem c4_unknown_keys_witness :
    resolveOptions (fun k => if k = "verbose" then some ArgVal.boolTrue else none)
      = resolveOptions (fun _ => none) :=
  c4_unknown_keys_ignored _ _ (by decide)

/-- Claim C5: when conversion of successfully read data throws, the
callback logs the conversion error (surfacing it) and issues no write, so
any existing target file is left unchanged; only this callback run is
involved. -/
theorem c5_conversion_error_no_write (conv : String → Except String String)
    (data e : String) (h : conv data = Except.error e) :
    (readFileCallback conv none data).written = none ∧
    (readFileCallback conv none data).errorsLogged
      = ["Error: Something went wrong while conversion. " ++ e] := by
  simp [readFileCallback, h]

/-- Witness for claim C5 at a conversion that always throws. -/
theorem c5_witness :
    (readFileCallback (fun _ => Except.error "boom") none "<p>").written = none ∧
    (readFileCallback (fun _ => Except.error "boom") none "<p>").errorsLogged
      = ["Error: Something went wrong while conversion. " ++ "boom"] :=
  c5_conversion_error_no_write (fun _ => Except.error "boom") "<p>" "boom" rfl

/-- Claim C6: loadPlugins issues exactly one use call per plugin recorded
in the configuration, in configuration order, and nothing else; with no
configuration file it registers zero plugins. -/
theorem c6_plugins_registered_in_order (file : Option PluginsConfig) :
    loadPlugins file = (readPluginsConfig file).plugins.map (fun p => p.path) ∧
    loadPlugins none = [] := by
  constructor
  · unfold loadPlugins
    rw [foldl_use_calls]
    simp
  · rfl

/-- Claim C7: for every heading level 1 through 6 and every heading text,
rendering with headingStyle atx yields a line whose first level + 1
characters are exactly level hash marks followed by a space (the space
terminates the leading hash run, so the run has length exactly level). -/
theorem c7_atx_heading_hash_run (level : Nat) (text : String)
    (h1 : 1 ≤ level) (h2 : level ≤ 6) :
    (renderHeading "atx" level text).data.take (level + 1)
      = List.replicate level '#' ++ [' '] := by
  unfold renderHeading
  rw [if_neg (by intro hc; exact absurd hc.1 (by decide))]
  have hdata : (String.mk (List.replicate level '#') ++ " " ++ text).data
      = List.replicate level '#' ++ (' ' :: text.data) := by
    rw [data_append, data_append]
    simp
  rw [hdata, List.take_append_eq_append_take, List.take_replicate, List.length_replicate]
  have hmin : min (level + 1) level = level := by omega
  have hsub : level + 1 - level = 1 := by omega
  rw [hmin, hsub]
  rfl

/-- Witness for claim C7 at level 3. -/
theorem c7_witness :
    (renderHeading "atx" 3 "Title").data.take (3 + 1)
      = List.replicate 3 '#' ++ [' '] :=
  c7_atx_heading_hash_run 3 "Title" (by decide) (by decide)

/-- Counterexample for claim C8: the default heading style is the first
enumerated choice, setext, not atx, so converting the example document
with default options yields an underlined title rather than the claimed
atx output. -/
theorem c8_default_output_is_setext :
    renderExample defaultEffOptions = "Title\n=====\n\nHello **world**" ∧
    renderExample defaultEffOptions ≠ "# Title\n\nHello **world**" := by
  constructor
  · rfl
  · decide

/-- Claim C8 (amended): converting the example document with headingStyle
atx explicitly selected (the defaults actually select setext) and the
default strong delimiter produces the claimed Markdown. -/
theorem c8_amended_atx_example :
    renderExample { defaultEffOptions with headingStyle := "atx" }
      = "# Title\n\nHello **world**" := rfl

/-- Claim C9: serialize renders the entries numbered sequentially from 1
in list order, joined by four spaces, and returns the empty string on the
empty list. -/
theorem c9_serialize_numbered (l : List String) :
    serialize l = String.intercalate "    " (numberedFrom 1 l) ∧
    serialize ([] : List String) = "" := by
  constructor
  · unfold serialize
    rw [show List.enum l = List.enumFrom 0 l from rfl, enumFrom_numbered]
  · rfl

/-- Claim C10: after a successful read, a write is issued exactly when
conversion completes without error with a non-empty Markdown string; a
conversion yielding the empty string issues no write and logs no error. -/
theorem c10_write_iff_ok_nonempty (conv : String → Except String String)
    (data : String) :
    (∀ md : String,
      (readFileCallback conv none data).written = some md ↔
        (conv data = Except.ok md ∧ md ≠ "")) ∧
    (conv data = Except.ok "" →
      (readFileCallback conv none data).written = none ∧
      (readFileCallback conv none data).errorsLogged = []) := by
  constructor
  · intro md
    cases hc : conv data with
    | error e => simp [readFileCallback, hc]
    | ok m =>
      by_cases hm : m = ""
      · subst hm
        simp only [readFileCallback, hc, if_pos rfl]
        simp only [Except.ok.injEq]
        constructor
        · intro hmd
          exact absurd hmd (by simp)
        · intro hmd
          exact absurd hmd.1.symm hmd.2
      · simp only [readFileCallback, hc, if_neg hm, Option.some.injEq, Except.ok.injEq]
        constructor
        · intro hmd
          exact ⟨hmd, hmd ▸ hm⟩
        · intro hmd
          exact hmd.1
  · intro h
    simp [readFileCallback, h]

/-- Witness for claim C10 at a conversion returning the empty string: no
write is issued and nothing is logged. -/
theorem c10_witness :
    (((readFileCallback (fun _ : String => (Except.ok "" : Except String String)) none "x").written
        = some "hi") ↔
      ((fun _ : String => (Except.ok "" : Except String String)) "x" = Except.ok "hi" ∧ "hi" ≠ "")) ∧
    (readFileCallback (fun _ : String => (Except.ok "" : Except String String)) none "x").written
      = none ∧
    (readFileCallback (fun _ : String => (Except.ok "" : Except String String)) none "x").errorsLogged
      = [] :=
  ⟨(c10_write_iff_ok_nonempty (fun _ : String => (Except.ok "" : Except String String)) "x").1 "hi",
   (c10_write_iff_ok_nonempty (fun _ : String => (Except.ok "" : Except String String)) "x").2 rfl⟩

end TurndownCli
